import Mathlib

/-!
Verification of the kxolab asynchronous job pipeline: a shallow embedding of
the submission endpoint (app/api/generate/route.ts), the worker
(app/api/worker/generate/route.ts, first document), the stuck-job scavenger,
the retry helper of lib/ai/google-client.ts and the aspect-ratio snapping of
lib/ai/fal-client.ts, together with theorems settling the specification
claims about them.  Wall clock instants are modelled as natural numbers of
milliseconds; the job store is the list of job rows, newest first.
-/

namespace Kxolab

/-- Job status strings used across the submission endpoint, the worker and
the scavenger, one constructor per string (the `error` spelling appears only
in the secondary worker documents). -/
inductive Status where
  | processing
  | generating
  | saving
  | completed
  | failed
  | retrying
  | error
deriving DecidableEq, Repr

/-- Content fingerprint of a submission.  The source computes
sha256 of the JSON serialization of exactly this field tuple
(app/api/generate/route.ts).  JSON.stringify with the fixed literal key
order is injective on these field values, and SHA-256 is treated as
collision free, so the digest is modelled by the normalized tuple itself. -/
structure ContentKey where
  imageUrl : String
  prompt : Option String
  category : Option String
  strength : Option ℚ
  seed : Nat
  resolution : Option String
  aspectRatio : Option String
  referenceImageUrls : Option (List String)
deriving DecidableEq, Repr

/-- The part of the execution_metadata JSON document that the verified
claims depend on: idempotency key, content hash, generation seed, the
append-only step log and the completion flag.  Purely diagnostic keys
(worker url, host header, timings) are omitted. -/
structure Metadata where
  idempotency_key : String
  content_hash : ContentKey
  seed : Nat
  steps : List Status
  completed : Bool
deriving DecidableEq, Repr

/-- The metadata of a row whose execution_metadata is absent: the worker
falls back to the empty JSON object. -/
def emptyMeta : Metadata :=
  { idempotency_key := ""
    content_hash :=
      { imageUrl := "", prompt := none, category := none, strength := none
        seed := 0, resolution := none, aspectRatio := none
        referenceImageUrls := none }
    seed := 0
    steps := []
    completed := false }

/-- One row of the jobs table (section 3 of the spec). -/
structure Job where
  id : Nat
  status : Status
  input_url : String
  prompt : String
  category : String
  user_id : Option String
  result_url : Option String
  error : Option String
  error_code : Option String
  created_at : Nat
  started_at : Option Nat
  updated_at : Nat
  finished_at : Option Nat
  meta : Metadata
deriving DecidableEq, Repr

/-- The jobs table.  Inserts prepend, so the head is the newest row and a
select ordered by created_at descending with limit 1 is a find from the
head. -/
abbrev Store := List Job

/-- Select of a single row by id. -/
def getJob (s : Store) (i : Nat) : Option Job :=
  s.find? (fun j => j.id == i)

/-- Conditional update: apply f to every row matched by the filter
predicate p (models a supabase update with its filters). -/
def updateWhere (p : Job → Bool) (f : Job → Job) (s : Store) : Store :=
  s.map (fun j => if p j then f j else j)

/-- safeString from app/api/generate/route.ts: a string passes through,
any other value becomes the fallback (empty string). -/
def safeString : Option String → String
  | some s => s
  | none => ""

/-- JavaScript `a || d` on an optional string: undefined and the empty
string (falsy) both yield the default. -/
def jsOr (o : Option String) (d : String) : String :=
  match o with
  | some s => if s = "" then d else s
  | none => d

/-- A JavaScript template literal interpolating a possibly undefined
variable renders undefined as the string "undefined". -/
def templateStr (o : Option String) : String :=
  match o with
  | some s => s
  | none => "undefined"

/-! ## Submission endpoint (app/api/generate/route.ts) -/

/-- The request body of POST /api/generate, with the fields the core
pipeline reads (all optional in the JSON body). -/
structure GenerateReq where
  sessionId : Option String
  imageUrl : Option String
  prompt : Option String
  strength : Option ℚ
  category : Option String
  photoId : Option String
  idempotencyKey : Option String
  resolution : Option String
  aspectRatio : Option String
  referenceImageUrls : Option (List String)
  seed : Option Nat
deriving DecidableEq, Repr

/-- Per-request environment of the submission endpoint: everything the
handler reads from the outside world.  randomSeed is the draw of
Math.floor(Math.random() * 2147483647); newJobId is the id the insert
returns; publishFailure (respectively insertFailure) is the error message
when the QStash publish (respectively the jobs insert) fails. -/
structure GenEnv where
  randomSeed : Nat
  newJobId : Nat
  now : Nat
  freshSessionId : String
  isLocalDev : Bool
  qstashTokenPresent : Bool
  publishFailure : Option String
  insertFailure : Option String
  userId : Option String
deriving DecidableEq, Repr

/-- The seed that enters the fingerprint and the row: the explicit body
seed when supplied, otherwise the random draw. -/
def effectiveSeed (env : GenEnv) (req : GenerateReq) : Nat :=
  match req.seed with
  | some n => n
  | none => env.randomSeed

/-- The normalized tuple that is hashed into the content fingerprint, in
the exact field order of the source. -/
def contentKeyOf (req : GenerateReq) (seed : Nat) : ContentKey :=
  { imageUrl := safeString req.imageUrl
    prompt := req.prompt
    category := req.category
    strength := req.strength
    seed := seed
    resolution := req.resolution
    aspectRatio := req.aspectRatio
    referenceImageUrls := req.referenceImageUrls }

/-- Statuses accepted by the content fingerprint lookup
(.in filter of the source). -/
def coalesceStatuses : List Status := [.completed, .processing, .retrying]

/-- Lookup of an existing job by idempotency key
(eq filter on execution_metadata, limit 1). -/
def findByIdemKey (s : Store) (k : String) : Option Job :=
  s.find? (fun j => j.meta.idempotency_key == k)

/-- The idempotency check is only performed for a truthy (non-empty)
key. -/
def idemLookup (s : Store) (k : String) : Option Job :=
  if k = "" then none else findByIdemKey s k

/-- Lookup of an existing job by content fingerprint, restricted to
completed, processing and retrying rows, newest first, limit 1. -/
def findByContent (s : Store) (ck : ContentKey) : Option Job :=
  s.find? (fun j => decide (j.status ∈ coalesceStatuses) && j.meta.content_hash == ck)

/-- The row inserted by the submission endpoint: status processing, no
result url, all generation parameters captured in the metadata. -/
def mkJob (env : GenEnv) (req : GenerateReq) (idemKey : String)
    (ck : ContentKey) (seed : Nat) : Job :=
  { id := env.newJobId
    status := .processing
    input_url := safeString req.imageUrl
    prompt := jsOr req.prompt ""
    category := jsOr req.category "other"
    user_id := env.userId
    result_url := none
    error := none
    error_code := none
    created_at := env.now
    started_at := some env.now
    updated_at := env.now
    finished_at := none
    meta :=
      { idempotency_key := idemKey
        content_hash := ck
        seed := seed
        steps := []
        completed := false } }

/-- Update applied by the submission endpoint when triggering the worker
throws: the job is marked failed with an explanatory error. -/
def markTriggerFailed (msg : String) (j : Job) : Job :=
  { j with status := .failed, error := some ("Trigger failed: " ++ msg) }

/-- The trigger section of the submission endpoint.  Local dev fires a
non-awaited direct worker fetch whose failure is only logged; otherwise a
missing QSTASH_TOKEN or a publish failure is caught and the job is marked
failed.  Returns the store and whether a worker delivery was dispatched. -/
def triggerWorker (env : GenEnv) (jobId : Nat) (s : Store) : Store × Bool :=
  if env.isLocalDev then
    (s, true)
  else if env.qstashTokenPresent = false then
    (updateWhere (fun j => j.id == jobId)
      (markTriggerFailed "CRITICAL: QSTASH_TOKEN is missing in environment.") s, false)
  else
    match env.publishFailure with
    | some m => (updateWhere (fun j => j.id == jobId) (markTriggerFailed m) s, false)
    | none => (s, true)

/-- The JSON response of the submission endpoint. -/
structure GenResponse where
  ok : Bool
  httpStatus : Nat
  jobId : Option Nat
  status : Option Status
  resultUrl : Option String
  sessionId : Option String
  cached : Bool
  error : Option String
deriving DecidableEq, Repr

/-- Result of one submission request: the store afterwards, the response,
and whether a worker delivery was dispatched. -/
structure GenOutcome where
  store : Store
  resp : GenResponse
  dispatched : Bool
deriving DecidableEq, Repr

/-- POST /api/generate: validation, idempotent replay, content based
coalescing, insert, worker trigger.  The JSON body is taken as already
parsed; a parse failure returns 400 before any of this runs. -/
def generatePOST (env : GenEnv) (req : GenerateReq) (s : Store) : GenOutcome :=
  let imageUrl := safeString req.imageUrl
  let prompt := safeString req.prompt
  if imageUrl = "" ∧ prompt = "" then
    { store := s
      resp := { ok := false, httpStatus := 400, jobId := none, status := none
                resultUrl := none, sessionId := none, cached := false
                error := some "imageUrl or prompt is required" }
      dispatched := false }
  else
    let sessionId := if safeString req.sessionId = "" then env.freshSessionId
                     else safeString req.sessionId
    let idemKey := safeString req.idempotencyKey
    let seed := effectiveSeed env req
    let ck := contentKeyOf req seed
    match idemLookup s idemKey with
    | some job =>
      { store := s
        resp := { ok := true, httpStatus := 200, jobId := some job.id
                  status := some job.status, resultUrl := job.result_url
                  sessionId := none, cached := true, error := none }
        dispatched := false }
    | none =>
      match findByContent s ck with
      | some job =>
        { store := s
          resp := { ok := true, httpStatus := 200, jobId := some job.id
                    status := some job.status
                    resultUrl := if job.status = .completed then job.result_url else none
                    sessionId := none, cached := true, error := none }
          dispatched := false }
      | none =>
        match env.insertFailure with
        | some m =>
          { store := s
            resp := { ok := false, httpStatus := 500, jobId := none, status := none
                      resultUrl := none, sessionId := none, cached := false
                      error := some ("Failed to create job: " ++ m) }
            dispatched := false }
        | none =>
          let newJob := mkJob env req idemKey ck seed
          let out := triggerWorker env newJob.id (newJob :: s)
          { store := out.1
            resp := { ok := true, httpStatus := 200, jobId := some newJob.id
                      status := none, resultUrl := none
                      sessionId := some sessionId, cached := false, error := none }
            dispatched := out.2 }

/-! ## Worker (app/api/worker/generate/route.ts, first document) -/

/-- The queue payload delivered to POST /api/worker/generate, with the
fields the worker reads (jobId may be absent on a malformed delivery;
prompt and photoId live in the nested original request body). -/
structure WorkerReq where
  jobId : Option Nat
  sessionId : Option String
  imageUrl : Option String
  prompt : Option String
  photoId : Option String
deriving DecidableEq, Repr

/-- Outcome of the nanoBananaGenerate call as seen by the worker: a
normalized success carries optional inline base64 bytes and an optional
result url; a failure carries the error message. -/
inductive GenCallResult where
  | ok (imageBase64 : Option String) (imageUrl : Option String)
  | err (msg : String)
deriving DecidableEq, Repr

/-- Per-invocation environment of the worker: the clock, the generation
outcome, the configured public base url, whether the upload race is lost
to its 60s timer, the failure of the result-url fetch if any, and the
error returned by the final completed update if any. -/
structure WorkerEnv where
  now : Nat
  generation : GenCallResult
  pubBase : Option String
  uploadTimesOut : Bool
  resultFetchFailure : Option String
  finalUpdateFailure : Option String
deriving DecidableEq, Repr

/-- updateProgress of the worker: writes the given status, the clock, and
the merged held metadata (with the step appended by the caller) to the row
with the given id. -/
def progressUpdate (jobId : Nat) (st : Status) (now : Nat) (cm : Metadata)
    (s : Store) : Store :=
  updateWhere (fun j => j.id == jobId)
    (fun j => { j with status := st, updated_at := now, meta := cm }) s

/-- The final write of a successful worker run: status completed, the
result url, the error cleared, the completion flag merged into the held
metadata. -/
def completeUpdate (jobId : Nat) (url : String) (cm : Metadata) (s : Store) : Store :=
  updateWhere (fun j => j.id == jobId)
    (fun j => { j with
                status := .completed
                result_url := some url
                error := none
                meta := { cm with completed := true } }) s

/-- The catch-block write of the worker: status failed with the message of
the caught exception on every row whose id equals the delivered jobId
(no row when jobId was absent). -/
def workerFailUpdate (jobId : Option Nat) (msg : String) (now : Nat)
    (cm : Metadata) (s : Store) : Store :=
  updateWhere (fun j => some j.id == jobId)
    (fun j => { j with
                status := .failed
                error := some msg
                updated_at := now
                meta := cm }) s

/-- The JSON response of the worker endpoint. -/
structure WorkerResp where
  ok : Bool
  httpStatus : Nat
  error : Option String
deriving DecidableEq, Repr

/-- Result of one worker invocation. -/
structure WorkerOutcome where
  store : Store
  resp : WorkerResp
deriving DecidableEq, Repr

/-- Shared tail of every exception path of the worker: apply the catch
block write and answer 500 with the message. -/
def workerCatch (jobId : Option Nat) (msg : String) (now : Nat)
    (cm : Metadata) (s : Store) : WorkerOutcome :=
  { store := workerFailUpdate jobId msg now cm s
    resp := { ok := false, httpStatus := 500, error := some msg } }

/-- The saving step: obtain the result bytes (inline base64, or a fetch of
the result url raced against its 60s abort timer) and upload them to the
object store raced against the 60s upload timer.  Returns the thrown
message when any of this fails. -/
def saveResult (env : WorkerEnv) (b64 url : Option String) : Option String :=
  match b64 with
  | some _ => if env.uploadTimesOut then some "R2_UPLOAD_TIMEOUT" else none
  | none =>
    match url with
    | some _ =>
      match env.resultFetchFailure with
      | some m => some m
      | none => if env.uploadTimesOut then some "R2_UPLOAD_TIMEOUT" else none
    | none => some "No image data found in generation result"

/-- POST /api/worker/generate (first document of the route file): load the
job, record the generating and saving steps, call the provider, upload the
result, finalize; any exception is caught at the top and written to the
job as a terminal failure. -/
def workerPOST (env : WorkerEnv) (req : WorkerReq) (s : Store) : WorkerOutcome :=
  match req.jobId with
  | none => workerCatch none "Missing jobId" env.now emptyMeta s
  | some jobId =>
    let cm0 := match getJob s jobId with
      | some j => j.meta
      | none => emptyMeta
    let cm1 := { cm0 with steps := cm0.steps ++ [Status.generating] }
    let s1 := progressUpdate jobId .generating env.now cm1 s
    match env.generation with
    | .err m => workerCatch (some jobId) ("Generation failed: " ++ m) env.now cm1 s1
    | .ok b64 url =>
      let cm2 := { cm1 with steps := cm1.steps ++ [Status.saving] }
      let s2 := progressUpdate jobId .saving env.now cm2 s1
      match env.pubBase with
      | none => workerCatch (some jobId) "NEXT_PUBLIC_R2_PUBLIC_BASE is missing" env.now cm2 s2
      | some pub =>
        let key := "private/" ++ templateStr req.sessionId ++ "/output/"
          ++ jsOr req.photoId "photo" ++ "_" ++ toString env.now ++ ".png"
        let resultUrl := pub ++ "/" ++ key
        match saveResult env b64 url with
        | some msg => workerCatch (some jobId) msg env.now cm2 s2
        | none =>
          match env.finalUpdateFailure with
          | some m =>
            workerCatch (some jobId) ("Final Update Error: " ++ m) env.now cm2 s2
          | none =>
            { store := completeUpdate jobId resultUrl cm2 s2
              resp := { ok := true, httpStatus := 200, error := none } }

/-! ## Scavenger (stuck-job reaper, second document of src/unnamed/part_008) -/

/-- The select of the sweep: ids of at most 200 rows in status processing
whose started_at is older than the 10 minute threshold, or with no
started_at and an updated_at older than the threshold. -/
def scavengerSelect (now : Nat) (s : Store) : List Nat :=
  let threshold := now - 10 * 60 * 1000
  (((s.filter (fun j =>
      j.status == Status.processing &&
      (match j.started_at with
       | some t => decide (t < threshold)
       | none => decide (j.updated_at < threshold)))).take 200).map (fun j => j.id))

/-- The row transformation of the sweep: terminal failure with the
distinguishing scavenger error code. -/
def scavengerFail (now : Nat) (j : Job) : Job :=
  { j with
    status := .failed
    error := some "job exceeded processing timeout"
    error_code := some "scavenger_timeout"
    finished_at := some now
    updated_at := now }

/-- The conditional update of the sweep: only rows of the selected id set
that are still in status processing are force-failed (the predicate
re-asserts status = processing). -/
def scavengerUpdate (now : Nat) (ids : List Nat) (s : Store) : Store :=
  updateWhere (fun j => ids.contains j.id && j.status == Status.processing)
    (scavengerFail now) s

/-! ## Retry helper (withRetry of lib/ai/google-client.ts) -/

/-- Outcome of one invocation of the wrapped operation: success, or a
thrown error with the wall clock time the attempt consumed. -/
inductive AttemptResult where
  | ok
  | thrown (msg : String) (durationMs : Nat)
deriving DecidableEq, Repr

/-- Trace of a withRetry run: how many times fn was invoked, the sleeps
performed (elapsed milliseconds when the sleep started, paired with its
length), and the surfaced error if any. -/
structure RetryTrace where
  attempts : Nat
  sleeps : List (Nat × Nat)
  result : Option String
deriving DecidableEq, Repr

/-- ASCII-lowercased code points of a string. -/
def lowerCodes (s : String) : List Nat :=
  s.data.map (fun c => if 65 ≤ c.toNat ∧ c.toNat ≤ 90 then c.toNat + 32 else c.toNat)

/-- Whether the second code list is a leading segment of the first. -/
def startsWithCodes : List Nat → List Nat → Bool
  | _, [] => true
  | [], _ :: _ => false
  | a :: as, b :: bs => a == b && startsWithCodes as bs

/-- Whether the second code list occurs inside the first. -/
def containsCodes : List Nat → List Nat → Bool
  | s, pat =>
    match s with
    | [] => startsWithCodes [] pat
    | _ :: rest => startsWithCodes s pat || containsCodes rest pat

/-- Case-insensitive substring test used to classify error messages (the
source tests case-insensitive regexes of literal alternatives against the
message). -/
def lowerContains (s pat : String) : Bool :=
  containsCodes (lowerCodes s) (lowerCodes pat)

/-- The rate-limit classifier: 429, resource exhausted, rate limit or
quota appears in the message. -/
def is429Msg (msg : String) : Bool :=
  lowerContains msg "429" || lowerContains msg "resource exhausted" ||
  lowerContains msg "rate limit" || lowerContains msg "quota"

/-- The retryable classifier: a rate-limit error, or limit, 503, 502 or
server error appears in the message. -/
def isRetryableMsg (msg : String) : Bool :=
  is429Msg msg || lowerContains msg "limit" || lowerContains msg "503" ||
  lowerContains msg "502" || lowerContains msg "server error"

/-- The 290s safety deadline under the 300s maxDuration ceiling. -/
def VERCEL_DEADLINE_MS : Nat := 290000

/-- JavaScript `o || d` on an optional number: undefined and 0 (falsy)
both yield the default. -/
def jsOrNat (o : Option Nat) (d : Nat) : Nat :=
  match o with
  | some n => if n = 0 then d else n
  | none => d

/-- Truthiness of an optional number. -/
def jsTruthyNat (o : Option Nat) : Bool :=
  match o with
  | some n => n ≠ 0
  | none => false

/-- The options record of withRetry (startTime only shifts the clock
origin and is the call instant in the one call site that passes it, so
elapsed time is tracked directly). -/
structure RetryOptions where
  maxTries : Option Nat
  initialDelay : Option Nat
deriving DecidableEq, Repr

/-- The delay chosen after a caught error: on the first try, for a
rate-limit error, with no configured initial delay, it is raised to 10s;
otherwise the current delay stands. -/
def nextDelay (initialDelayGiven : Bool) (i delay : Nat) (msg : String) : Nat :=
  if i == 0 && is429Msg msg && !initialDelayGiven then 10000 else delay

/-- tooCloseToDeadline of the source: elapsed plus one and a half times
the next delay projects past the deadline. -/
def tooClose (elapsed delay : Nat) : Bool :=
  decide (elapsed + delay * 3 / 2 > VERCEL_DEADLINE_MS)

/-- The retry loop of withRetry.  remaining counts the iterations left of
the for loop (maxTries - i); elapsed is Date.now() - startTime; the loop
stops on a non-retryable error, on the last try, or when the projection
passes the deadline, rethrowing the caught error; otherwise it sleeps and
doubles the delay. -/
def withRetryGo (fn : Nat → AttemptResult) (maxTries : Nat)
    (initialDelayGiven : Bool) :
    Nat → Nat → Nat → Nat → Nat → List (Nat × Nat) → RetryTrace
  | 0, _, _, _, attempts, sleeps =>
    { attempts := attempts, sleeps := sleeps
      result := some "Retry logic failed to return" }
  | remaining + 1, i, elapsed, delay, attempts, sleeps =>
    match fn i with
    | .ok => { attempts := attempts + 1, sleeps := sleeps, result := none }
    | .thrown msg dur =>
      let elapsed := elapsed + dur
      let delay := nextDelay initialDelayGiven i delay msg
      if !isRetryableMsg msg || (i == maxTries - 1) || tooClose elapsed delay then
        { attempts := attempts + 1, sleeps := sleeps, result := some msg }
      else
        withRetryGo fn maxTries initialDelayGiven remaining (i + 1)
          (elapsed + delay) (delay * 2) (attempts + 1) (sleeps ++ [(elapsed, delay)])

/-- withRetry of lib/ai/google-client.ts, as a trace semantics: fn gives
the outcome of each attempt by index. -/
def withRetry (fn : Nat → AttemptResult) (opts : RetryOptions) : RetryTrace :=
  let maxTries := jsOrNat opts.maxTries 5
  let delay0 := jsOrNat opts.initialDelay 3000
  withRetryGo fn maxTries (jsTruthyNat opts.initialDelay) maxTries 0 0 delay0 0 []

/-! ## Aspect ratio snapping (lib/ai/fal-client.ts) -/

/-- The supported output ratios of the Nano Banana Pro adapter, in source
order. -/
def supportedRatios : List (String × ℚ) :=
  [("21:9", 21 / 9), ("16:9", 16 / 9), ("3:2", 3 / 2), ("4:3", 4 / 3),
   ("5:4", 5 / 4), ("1:1", 1), ("4:5", 4 / 5), ("3:4", 3 / 4),
   ("2:3", 2 / 3), ("9:16", 9 / 16)]

/-- The minimum search loop of the adapter: minDiff starts at Infinity
(the none case) and an entry replaces the best exactly when its absolute
difference to the source ratio is strictly smaller. -/
def snapGo (ratio : ℚ) : List (String × ℚ) → String × Option ℚ → String × Option ℚ
  | [], acc => acc
  | (k, v) :: rest, (best, minDiff) =>
    let diff := |ratio - v|
    let keep : Bool := match minDiff with
      | none => true
      | some m => decide (diff < m)
    if keep then snapGo ratio rest (k, some diff)
    else snapGo ratio rest (best, minDiff)

/-- closestRatio of the adapter: the supported ratio closest to the source
width to height ratio, defaulting to 1:1. -/
def closestRatio (ratio : ℚ) : String :=
  (snapGo ratio supportedRatios ("1:1", none)).1

/-! ## Store lemmas -/

theorem getJob_id {s : Store} {i : Nat} {j : Job} (h : getJob s i = some j) :
    j.id = i := by
  have := List.find?_some h
  simpa using this

theorem getJob_mem {s : Store} {i : Nat} {j : Job} (h : getJob s i = some j) :
    j ∈ s :=
  List.mem_of_find?_eq_some h

theorem find?_updateWhere (p : Job → Bool) (f : Job → Job) (q : Job → Bool)
    (hq : ∀ j, q (f j) = q j) (s : Store) :
    (updateWhere p f s).find? q = (s.find? q).map (fun j => if p j then f j else j) := by
  induction s with
  | nil => rfl
  | cons a s ih =>
    have hqa : q (if p a then f a else a) = q a := by
      by_cases hpa : p a <;> simp [hpa, hq]
    simp only [updateWhere, List.map_cons, List.find?_cons, hqa] at *
    cases hqa2 : q a
    · simpa [updateWhere] using ih
    · rfl

theorem getJob_updateWhere (p : Job → Bool) (f : Job → Job)
    (hf : ∀ j, (f j).id = j.id) (s : Store) (i : Nat) :
    getJob (updateWhere p f s) i = (getJob s i).map (fun j => if p j then f j else j) := by
  unfold getJob
  exact find?_updateWhere p f _ (fun j => by simp [hf]) s

theorem length_filter_updateWhere (p : Job → Bool) (f : Job → Job) (q : Job → Bool)
    (hq : ∀ j, q (f j) = q j) (s : Store) :
    ((updateWhere p f s).filter q).length = (s.filter q).length := by
  induction s with
  | nil => rfl
  | cons a s ih =>
    have hqa : q (if p a then f a else a) = q a := by
      by_cases hpa : p a <;> simp [hpa, hq]
    cases hqa2 : q a <;>
      simp_all [updateWhere, List.filter_cons, hqa, hqa2]

/-! ## Worker path lemmas -/

theorem progressUpdate_id (i : Nat) (st : Status) (now : Nat) (cm : Metadata)
    {s : Store} {job : Job} (h : getJob s i = some job) :
    getJob (progressUpdate i st now cm s) i =
      some { job with status := st, updated_at := now, meta := cm } := by
  unfold progressUpdate
  rw [getJob_updateWhere (fun j => j.id == i)
    (fun j => { j with status := st, updated_at := now, meta := cm })
    (fun j => rfl) s i, h]
  simp [getJob_id h]

theorem completeUpdate_id (i : Nat) (url : String) (cm : Metadata)
    {s : Store} {job : Job} (h : getJob s i = some job) :
    getJob (completeUpdate i url cm s) i =
      some { job with
             status := .completed
             result_url := some url
             error := none
             meta := { cm with completed := true } } := by
  unfold completeUpdate
  rw [getJob_updateWhere (fun j => j.id == i)
    (fun j => { j with
                status := .completed
                result_url := some url
                error := none
                meta := { cm with completed := true } })
    (fun j => rfl) s i, h]
  simp [getJob_id h]

theorem workerFailUpdate_id (i : Nat) (msg : String) (now : Nat) (cm : Metadata)
    {s : Store} {job : Job} (h : getJob s i = some job) :
    getJob (workerFailUpdate (some i) msg now cm s) i =
      some { job with
             status := .failed
             error := some msg
             updated_at := now
             meta := cm } := by
  unfold workerFailUpdate
  rw [getJob_updateWhere (fun j => some j.id == some i)
    (fun j => { j with
                status := .failed
                error := some msg
                updated_at := now
                meta := cm })
    (fun j => rfl) s i, h]
  simp [getJob_id h]

theorem workerCatch_spec (i : Nat) (msg : String) (now : Nat) (cm : Metadata)
    {s : Store} {job : Job} (h : getJob s i = some job) :
    getJob (workerCatch (some i) msg now cm s).store i =
      some { job with
             status := .failed
             error := some msg
             updated_at := now
             meta := cm } ∧
    (workerCatch (some i) msg now cm s).resp =
      { ok := false, httpStatus := 500, error := some msg } :=
  ⟨workerFailUpdate_id i msg now cm h, rfl⟩

/-! ## Submission endpoint path lemmas -/

theorem triggerWorker_cases (env : GenEnv) (i : Nat) (s : Store) :
    triggerWorker env i s = (s, true) ∨
    ∃ msg, triggerWorker env i s =
      (updateWhere (fun j => j.id == i) (markTriggerFailed msg) s, false) := by
  unfold triggerWorker
  by_cases hdev : env.isLocalDev
  · left; simp [hdev]
  · by_cases htok : env.qstashTokenPresent
    · cases hpub : env.publishFailure with
      | none => left; simp [hdev, htok, hpub]
      | some m => right; exact ⟨m, by simp [hdev, htok, hpub]⟩
    · right
      exact ⟨"CRITICAL: QSTASH_TOKEN is missing in environment.",
        by simp [hdev, htok]⟩

theorem markTriggerFailed_meta (msg : String) (j : Job) :
    (markTriggerFailed msg j).meta = j.meta := rfl

theorem markTriggerFailed_id (msg : String) (j : Job) :
    (markTriggerFailed msg j).id = j.id := rfl

theorem generatePOST_insert_eq (env : GenEnv) (req : GenerateReq) (s : Store)
    (hval : ¬(safeString req.imageUrl = "" ∧ safeString req.prompt = ""))
    (hidem : idemLookup s (safeString req.idempotencyKey) = none)
    (hcont : findByContent s (contentKeyOf req (effectiveSeed env req)) = none)
    (hins : env.insertFailure = none) :
    generatePOST env req s =
      { store := (triggerWorker env env.newJobId
          (mkJob env req (safeString req.idempotencyKey)
            (contentKeyOf req (effectiveSeed env req)) (effectiveSeed env req) :: s)).1
        resp := { ok := true, httpStatus := 200, jobId := some env.newJobId
                  status := none, resultUrl := none
                  sessionId := some (if safeString req.sessionId = ""
                    then env.freshSessionId else safeString req.sessionId)
                  cached := false, error := none }
        dispatched := (triggerWorker env env.newJobId
          (mkJob env req (safeString req.idempotencyKey)
            (contentKeyOf req (effectiveSeed env req)) (effectiveSeed env req) :: s)).2 } := by
  simp only [generatePOST, if_neg hval, hidem, hcont, hins]
  rfl

theorem generatePOST_idemHit_eq (env : GenEnv) (req : GenerateReq) (s : Store)
    (job : Job)
    (hval : ¬(safeString req.imageUrl = "" ∧ safeString req.prompt = ""))
    (hidem : idemLookup s (safeString req.idempotencyKey) = some job) :
    generatePOST env req s =
      { store := s
        resp := { ok := true, httpStatus := 200, jobId := some job.id
                  status := some job.status, resultUrl := job.result_url
                  sessionId := none, cached := true, error := none }
        dispatched := false } := by
  simp only [generatePOST, if_neg hval, hidem]

theorem generatePOST_contentHit_eq (env : GenEnv) (req : GenerateReq) (s : Store)
    (job : Job)
    (hval : ¬(safeString req.imageUrl = "" ∧ safeString req.prompt = ""))
    (hidem : idemLookup s (safeString req.idempotencyKey) = none)
    (hcont : findByContent s (contentKeyOf req (effectiveSeed env req)) = some job) :
    generatePOST env req s =
      { store := s
        resp := { ok := true, httpStatus := 200, jobId := some job.id
                  status := some job.status
                  resultUrl := if job.status = .completed then job.result_url else none
                  sessionId := none, cached := true, error := none }
        dispatched := false } := by
  simp only [generatePOST, if_neg hval, hidem, hcont]

/-! ## Claim C1: scavenger conditional update safety -/

/-- C1: a job selected by the scavenger sweep while processing but moved to
completed (or any other non-processing status) by the Worker between the
select and the update is left entirely untouched by the conditional update,
whose predicate re-asserts status = processing: its status stays completed
and its result_url is unchanged; the scavenger never moves a job out of a
terminal state. -/
theorem scavenger_conditional_update_safe (selNow updNow : Nat) (s0 s1 : Store)
    (i : Nat) (job : Job)
    (hjob : getJob s1 i = some job)
    (hnotproc : job.status ≠ .processing) :
    getJob (scavengerUpdate updNow (scavengerSelect selNow s0) s1) i = some job := by
  unfold scavengerUpdate
  rw [getJob_updateWhere
    (fun j => (scavengerSelect selNow s0).contains j.id && j.status == Status.processing)
    (scavengerFail updNow) (fun j => rfl) s1 i, hjob]
  have hb : (job.status == Status.processing) = false := by
    simpa using hnotproc
  have hif : ((scavengerSelect selNow s0).contains job.id &&
      job.status == Status.processing) = false := by
    simp [hb]
  simp [hif]
  exact fun _ h => absurd h hnotproc

/-- Scenario witness for C1: job 1 is stale processing and gets selected by
the sweep; the worker completes it with a result url before the scavenger
update runs; the conditional update leaves the completed row unchanged. -/
def c1Job0 : Job :=
  { id := 1, status := .processing, input_url := "https://x/a.jpg"
    prompt := "enhance", category := "other", user_id := none
    result_url := none, error := none, error_code := none
    created_at := 0, started_at := some 0, updated_at := 0
    finished_at := none, meta := emptyMeta }

/-- The same job after the Worker concurrently completed it. -/
def c1Job1 : Job :=
  { c1Job0 with status := .completed, result_url := some "https://pub/r.png" }

theorem scavenger_conditional_update_safe_witness :
    scavengerSelect 700000 [c1Job0] = [1] ∧
    getJob (scavengerUpdate 700001 (scavengerSelect 700000 [c1Job0]) [c1Job1]) 1 =
      some c1Job1 :=
  ⟨by decide,
   scavenger_conditional_update_safe 700000 700001 [c1Job0] [c1Job1] 1 c1Job1
     (by decide) (by decide)⟩

/-! ## Claim C2: the worker always leaves the job terminal -/

/-- Shape of the claim C2 conclusion, shared by the catch and the success
paths of the worker. -/
theorem exists_terminal_of_catch {i : Nat} {msg : String} {now : Nat}
    {cm : Metadata} {s : Store} {W : WorkerOutcome} {job1 : Job}
    (h1 : getJob s i = some job1)
    (hW : W = workerCatch (some i) msg now cm s) :
    ∃ job', getJob W.store i = some job' ∧
      (W.resp.ok = true → job'.status = .completed) ∧
      (W.resp.ok = false → job'.status = .failed ∧ job'.error = W.resp.error) ∧
      job'.status ≠ .processing ∧ job'.status ≠ .generating ∧ job'.status ≠ .saving := by
  subst hW
  obtain ⟨hget, hresp⟩ := workerCatch_spec i msg now cm h1
  refine ⟨_, hget, ?_, ?_, by simp, by simp, by simp⟩
  · intro hok
    rw [hresp] at hok
    simp at hok
  · intro _
    rw [hresp]
    simp

/-- C2: for every invocation of the worker endpoint on an existing job and
every combination of failure outcomes of its pipeline (generation failure,
missing public base configuration, result fetch failure, upload timeout,
missing image data, final update error), the top level catch writes the
terminal failed status together with the thrown message to the job, and
after the function returns the job is never left in an active state
(processing, generating or saving). -/
theorem worker_catches_all_and_terminal (env : WorkerEnv) (req : WorkerReq)
    (s : Store) (i : Nat) (job : Job)
    (hid : req.jobId = some i) (hjob : getJob s i = some job) :
    ∃ job', getJob (workerPOST env req s).store i = some job' ∧
      ((workerPOST env req s).resp.ok = true → job'.status = .completed) ∧
      ((workerPOST env req s).resp.ok = false →
        job'.status = .failed ∧ job'.error = (workerPOST env req s).resp.error) ∧
      job'.status ≠ .processing ∧ job'.status ≠ .generating ∧ job'.status ≠ .saving := by
  cases hgen : env.generation with
  | err m =>
    simp only [workerPOST, hid, hjob, hgen]
    exact exists_terminal_of_catch
      (progressUpdate_id i .generating env.now _ hjob) rfl
  | ok b64 url =>
    cases hpub : env.pubBase with
    | none =>
      simp only [workerPOST, hid, hjob, hgen, hpub]
      exact exists_terminal_of_catch
        (progressUpdate_id i .saving env.now _
          (progressUpdate_id i .generating env.now _ hjob)) rfl
    | some pub =>
      cases hsave : saveResult env b64 url with
      | some msg =>
        simp only [workerPOST, hid, hjob, hgen, hpub, hsave]
        exact exists_terminal_of_catch
          (progressUpdate_id i .saving env.now _
            (progressUpdate_id i .generating env.now _ hjob)) rfl
      | none =>
        cases hfin : env.finalUpdateFailure with
        | some m =>
          simp only [workerPOST, hid, hjob, hgen, hpub, hsave, hfin]
          exact exists_terminal_of_catch
            (progressUpdate_id i .saving env.now _
              (progressUpdate_id i .generating env.now _ hjob)) rfl
        | none =>
          simp only [workerPOST, hid, hjob, hgen, hpub, hsave, hfin]
          exact ⟨_, completeUpdate_id i _ _
            (progressUpdate_id i .saving env.now _
              (progressUpdate_id i .generating env.now _ hjob)),
            fun _ => rfl, fun h => by simp at h, by simp, by simp, by simp⟩

/-- Concrete scenario for the C2 witness: an existing processing job and a
worker invocation whose generation call fails. -/
def c2Job : Job :=
  { id := 1, status := .processing, input_url := "https://x/a.jpg"
    prompt := "enhance", category := "other", user_id := none
    result_url := none, error := none, error_code := none
    created_at := 0, started_at := some 0, updated_at := 0
    finished_at := none, meta := emptyMeta }

def c2Req : WorkerReq :=
  { jobId := some 1, sessionId := some "s", imageUrl := some "https://x/a.jpg"
    prompt := some "enhance", photoId := none }

def c2Env : WorkerEnv :=
  { now := 9, generation := .err "boom", pubBase := some "https://pub"
    uploadTimesOut := false, resultFetchFailure := none
    finalUpdateFailure := none }

theorem worker_catches_all_and_terminal_witness :
    c2Req.jobId = some 1 ∧ getJob [c2Job] 1 = some c2Job ∧
    (∃ job', getJob (workerPOST c2Env c2Req [c2Job]).store 1 = some job' ∧
      ((workerPOST c2Env c2Req [c2Job]).resp.ok = true → job'.status = .completed) ∧
      ((workerPOST c2Env c2Req [c2Job]).resp.ok = false →
        job'.status = .failed ∧ job'.error = (workerPOST c2Env c2Req [c2Job]).resp.error) ∧
      job'.status ≠ .processing ∧ job'.status ≠ .generating ∧ job'.status ≠ .saving) :=
  ⟨rfl, by decide,
   worker_catches_all_and_terminal c2Env c2Req [c2Job] 1 c2Job rfl (by decide)⟩

/-! ## Claim C3: dispatch failures mark the job failed in-request -/

theorem getJob_head (j : Job) (s : Store) : getJob (j :: s) j.id = some j := by
  simp [getJob]

theorem trigger_failed_head (msg : String) (j : Job) (s : Store) :
    getJob (updateWhere (fun x => x.id == j.id) (markTriggerFailed msg) (j :: s)) j.id =
      some (markTriggerFailed msg j) := by
  rw [getJob_updateWhere (fun x => x.id == j.id) (markTriggerFailed msg)
    (fun x => rfl) (j :: s) j.id, getJob_head]
  simp

/-- C3: on any submission that inserts a new job, if triggering the queue
fails (missing QSTASH_TOKEN or a publish exception), the handler marks that
very job failed with an explanatory Trigger failed error before responding,
and no work is dispatched: the job is never left silently stuck in
processing by a dispatch failure. -/
theorem dispatch_failure_marks_job_failed (env : GenEnv) (req : GenerateReq)
    (s : Store)
    (hdev : env.isLocalDev = false)
    (hval : ¬(safeString req.imageUrl = "" ∧ safeString req.prompt = ""))
    (hidem : idemLookup s (safeString req.idempotencyKey) = none)
    (hcont : findByContent s (contentKeyOf req (effectiveSeed env req)) = none)
    (hins : env.insertFailure = none)
    (hfail : env.qstashTokenPresent = false ∨ env.publishFailure ≠ none) :
    ∃ msg job', getJob (generatePOST env req s).store env.newJobId = some job' ∧
      job'.status = .failed ∧ job'.error = some ("Trigger failed: " ++ msg) ∧
      (generatePOST env req s).dispatched = false ∧
      (generatePOST env req s).resp.jobId = some env.newJobId := by
  rw [generatePOST_insert_eq env req s hval hidem hcont hins]
  set newJob := mkJob env req (safeString req.idempotencyKey)
    (contentKeyOf req (effectiveSeed env req)) (effectiveSeed env req) with hnj
  by_cases htok : env.qstashTokenPresent
  · rcases hfail with h | h
    · rw [htok] at h; cases h
    · obtain ⟨m, hm⟩ := Option.ne_none_iff_exists'.mp h
      have htw : triggerWorker env env.newJobId (newJob :: s) =
          (updateWhere (fun j => j.id == env.newJobId) (markTriggerFailed m)
            (newJob :: s), false) := by
        simp [triggerWorker, hdev, htok, hm]
      rw [htw]
      exact ⟨m, markTriggerFailed m newJob, trigger_failed_head m newJob s,
        rfl, rfl, rfl, rfl⟩
  · have htok' : env.qstashTokenPresent = false := by
      simpa using htok
    have htw : triggerWorker env env.newJobId (newJob :: s) =
        (updateWhere (fun j => j.id == env.newJobId)
          (markTriggerFailed "CRITICAL: QSTASH_TOKEN is missing in environment.")
          (newJob :: s), false) := by
      simp [triggerWorker, hdev, htok']
    rw [htw]
    exact ⟨"CRITICAL: QSTASH_TOKEN is missing in environment.",
      markTriggerFailed "CRITICAL: QSTASH_TOKEN is missing in environment." newJob,
      trigger_failed_head _ newJob s, rfl, rfl, rfl, rfl⟩

/-- Concrete scenario for the C3 witness: a valid submission on an empty
store, production mode, QStash publish throws. -/
def c3Req : GenerateReq :=
  { sessionId := none, imageUrl := some "https://x/a.jpg", prompt := some "enhance"
    strength := none, category := none, photoId := none, idempotencyKey := none
    resolution := some "2K", aspectRatio := none, referenceImageUrls := none
    seed := some 1 }

def c3Env : GenEnv :=
  { randomSeed := 7, newJobId := 1, now := 0, freshSessionId := "sess_a"
    isLocalDev := false, qstashTokenPresent := true
    publishFailure := some "connect ECONNREFUSED", insertFailure := none
    userId := none }

theorem dispatch_failure_marks_job_failed_witness :
    c3Env.isLocalDev = false ∧
    (∃ msg job', getJob (generatePOST c3Env c3Req []).store c3Env.newJobId = some job' ∧
      job'.status = .failed ∧ job'.error = some ("Trigger failed: " ++ msg) ∧
      (generatePOST c3Env c3Req []).dispatched = false ∧
      (generatePOST c3Env c3Req []).resp.jobId = some c3Env.newJobId) :=
  ⟨rfl, dispatch_failure_marks_job_failed c3Env c3Req [] rfl (by decide)
    (by decide) rfl rfl (Or.inr (by decide))⟩

/-! ## Claim C10: idempotent replay applies no status filter -/

/-- C10: the existing-job lookup by idempotency key carries no status
filter, so replaying the key of a failed job returns that failed job and
its status without touching the store or dispatching work, while the
content fingerprint lookup only ever returns jobs in completed, processing
or retrying. -/
theorem idem_lookup_ignores_status (env : GenEnv) (req : GenerateReq)
    (s : Store) (job : Job)
    (hval : ¬(safeString req.imageUrl = "" ∧ safeString req.prompt = ""))
    (hk : safeString req.idempotencyKey ≠ "")
    (hfind : findByIdemKey s (safeString req.idempotencyKey) = some job)
    (hfailed : job.status = .failed) :
    (generatePOST env req s).resp.jobId = some job.id ∧
    (generatePOST env req s).resp.status = some Status.failed ∧
    (generatePOST env req s).resp.cached = true ∧
    (generatePOST env req s).store = s ∧
    (generatePOST env req s).dispatched = false ∧
    (∀ ck j', findByContent s ck = some j' → j'.status ∈ coalesceStatuses) := by
  have hidem : idemLookup s (safeString req.idempotencyKey) = some job := by
    simp [idemLookup, hk, hfind]
  rw [generatePOST_idemHit_eq env req s job hval hidem]
  refine ⟨rfl, by simp [hfailed], rfl, rfl, rfl, ?_⟩
  intro ck j' h
  have hp := List.find?_some h
  simp only [Bool.and_eq_true, decide_eq_true_eq] at hp
  exact hp.1

/-- Concrete scenario for the C10 witness: the store holds one failed job
carrying key K; a valid submission replays key K. -/
def c10Job : Job :=
  { id := 3, status := .failed, input_url := "https://x/a.jpg"
    prompt := "enhance", category := "other", user_id := none
    result_url := none, error := some "Generation failed: boom"
    error_code := none, created_at := 0, started_at := some 0, updated_at := 0
    finished_at := none
    meta := { emptyMeta with idempotency_key := "K" } }

def c10Req : GenerateReq :=
  { sessionId := none, imageUrl := some "https://x/a.jpg", prompt := some "enhance"
    strength := none, category := none, photoId := none
    idempotencyKey := some "K", resolution := none, aspectRatio := none
    referenceImageUrls := none, seed := some 1 }

def c10Env : GenEnv :=
  { randomSeed := 7, newJobId := 9, now := 0, freshSessionId := "sess_b"
    isLocalDev := false, qstashTokenPresent := true, publishFailure := none
    insertFailure := none, userId := none }

theorem idem_lookup_ignores_status_witness :
    c10Job.status = .failed ∧
    ((generatePOST c10Env c10Req [c10Job]).resp.jobId = some c10Job.id ∧
     (generatePOST c10Env c10Req [c10Job]).resp.status = some Status.failed ∧
     (generatePOST c10Env c10Req [c10Job]).resp.cached = true ∧
     (generatePOST c10Env c10Req [c10Job]).store = [c10Job] ∧
     (generatePOST c10Env c10Req [c10Job]).dispatched = false ∧
     (∀ ck j', findByContent [c10Job] ck = some j' → j'.status ∈ coalesceStatuses)) :=
  ⟨rfl, idem_lookup_ignores_status c10Env c10Req [c10Job] c10Job (by decide)
    (by decide) (by decide) rfl⟩

/-! ## Claim C4: explicit idempotency key replay -/

theorem findByIdemKey_cons_hit {j : Job} {k : String}
    (h : j.meta.idempotency_key = k) (s : Store) :
    findByIdemKey (j :: s) k = some j := by
  simp [findByIdemKey, h]

/-- C4: two submissions with the same explicit idempotency key, the first
of which inserts a job, resolve to the same job id: the second answers
from the key lookup with cached true, leaves the store untouched and
dispatches nothing, and exactly one row carries the key. -/
theorem idempotent_replay_single_job (env1 env2 : GenEnv)
    (req1 req2 : GenerateReq) (s : Store) (k : String)
    (hk : k ≠ "")
    (hk1 : safeString req1.idempotencyKey = k)
    (hk2 : safeString req2.idempotencyKey = k)
    (hval1 : ¬(safeString req1.imageUrl = "" ∧ safeString req1.prompt = ""))
    (hval2 : ¬(safeString req2.imageUrl = "" ∧ safeString req2.prompt = ""))
    (hnokey : ∀ j ∈ s, j.meta.idempotency_key ≠ k)
    (hcont : findByContent s (contentKeyOf req1 (effectiveSeed env1 req1)) = none)
    (hins : env1.insertFailure = none) :
    (generatePOST env1 req1 s).resp.jobId = some env1.newJobId ∧
    (generatePOST env2 req2 (generatePOST env1 req1 s).store).resp.jobId =
      some env1.newJobId ∧
    (generatePOST env2 req2 (generatePOST env1 req1 s).store).resp.cached = true ∧
    (generatePOST env2 req2 (generatePOST env1 req1 s).store).store =
      (generatePOST env1 req1 s).store ∧
    (generatePOST env2 req2 (generatePOST env1 req1 s).store).dispatched = false ∧
    ((generatePOST env1 req1 s).store.filter
      (fun j => j.meta.idempotency_key == k)).length = 1 := by
  have hidem1 : idemLookup s (safeString req1.idempotencyKey) = none := by
    rw [hk1]
    simp only [idemLookup, if_neg hk, findByIdemKey]
    exact List.find?_eq_none.mpr (fun j hj => by
      simpa using hnokey j hj)
  rw [generatePOST_insert_eq env1 req1 s hval1 hidem1 hcont hins]
  set newJob := mkJob env1 req1 (safeString req1.idempotencyKey)
    (contentKeyOf req1 (effectiveSeed env1 req1)) (effectiveSeed env1 req1) with hnj
  have hnewkey : newJob.meta.idempotency_key = k := hk1
  have hsfilter : (s.filter (fun j => j.meta.idempotency_key == k)) = [] :=
    List.filter_eq_nil_iff.mpr (fun j hj => by simpa using hnokey j hj)
  rcases triggerWorker_cases env1 env1.newJobId (newJob :: s) with htw | ⟨msg, htw⟩
  · rw [htw]
    have hidem2 : idemLookup (newJob :: s) (safeString req2.idempotencyKey) =
        some newJob := by
      rw [hk2]
      simp only [idemLookup, if_neg hk]
      exact findByIdemKey_cons_hit hnewkey s
    rw [generatePOST_idemHit_eq env2 req2 (newJob :: s) newJob hval2 hidem2]
    refine ⟨rfl, rfl, rfl, rfl, rfl, ?_⟩
    simp [List.filter_cons, hnewkey, hsfilter]
  · rw [htw]
    have hup : updateWhere (fun j => j.id == env1.newJobId)
        (markTriggerFailed msg) (newJob :: s) =
        markTriggerFailed msg newJob ::
          updateWhere (fun j => j.id == env1.newJobId) (markTriggerFailed msg) s := by
      simp [updateWhere, show newJob.id = env1.newJobId from rfl]
    have hidem2 : idemLookup (updateWhere (fun j => j.id == env1.newJobId)
        (markTriggerFailed msg) (newJob :: s)) (safeString req2.idempotencyKey) =
        some (markTriggerFailed msg newJob) := by
      rw [hk2, hup]
      simp only [idemLookup, if_neg hk]
      exact findByIdemKey_cons_hit
        (show (markTriggerFailed msg newJob).meta.idempotency_key = k from hnewkey) _
    rw [generatePOST_idemHit_eq env2 req2 _ (markTriggerFailed msg newJob) hval2 hidem2]
    refine ⟨rfl, rfl, rfl, rfl, rfl, ?_⟩
    show ((updateWhere (fun j => j.id == env1.newJobId) (markTriggerFailed msg)
      (newJob :: s)).filter (fun j => j.meta.idempotency_key == k)).length = 1
    rw [length_filter_updateWhere (fun j => j.id == env1.newJobId)
      (markTriggerFailed msg) (fun j => j.meta.idempotency_key == k)
      (fun j => rfl) (newJob :: s)]
    simp [List.filter_cons, hnewkey, hsfilter]

/-- Concrete scenario for the C4 witness: key K submitted twice on an empty
store; the first run inserts job 1 and publishes fine, the second replays. -/
def c4Req : GenerateReq :=
  { sessionId := none, imageUrl := some "https://x/a.jpg", prompt := some "enhance"
    strength := none, category := none, photoId := none
    idempotencyKey := some "K", resolution := none, aspectRatio := none
    referenceImageUrls := none, seed := some 1 }

def c4Env1 : GenEnv :=
  { randomSeed := 7, newJobId := 1, now := 0, freshSessionId := "sess_c"
    isLocalDev := false, qstashTokenPresent := true, publishFailure := none
    insertFailure := none, userId := none }

def c4Env2 : GenEnv :=
  { randomSeed := 8, newJobId := 2, now := 5, freshSessionId := "sess_d"
    isLocalDev := false, qstashTokenPresent := true, publishFailure := none
    insertFailure := none, userId := none }

theorem idempotent_replay_single_job_witness :
    (generatePOST c4Env1 c4Req []).resp.jobId = some c4Env1.newJobId ∧
    (generatePOST c4Env2 c4Req (generatePOST c4Env1 c4Req []).store).resp.jobId =
      some c4Env1.newJobId ∧
    (generatePOST c4Env2 c4Req (generatePOST c4Env1 c4Req []).store).resp.cached = true ∧
    (generatePOST c4Env2 c4Req (generatePOST c4Env1 c4Req []).store).store =
      (generatePOST c4Env1 c4Req []).store ∧
    (generatePOST c4Env2 c4Req (generatePOST c4Env1 c4Req []).store).dispatched = false ∧
    ((generatePOST c4Env1 c4Req []).store.filter
      (fun j => j.meta.idempotency_key == "K")).length = 1 :=
  idempotent_replay_single_job c4Env1 c4Env2 c4Req c4Req [] "K" (by decide)
    rfl rfl (by decide) (by decide) (by simp) rfl rfl

/-! ## Claim C5: content based coalescing -/

/-- Scenario device: the status later observed on a row (for instance after
the worker completed the job, or a queue retry put it in retrying); only the
status field is changed. -/
def setStatus (i : Nat) (st : Status) (s : Store) : Store :=
  updateWhere (fun j => j.id == i) (fun j => { j with status := st }) s

theorem setStatus_cons_hit (i : Nat) (st : Status) {a : Job} (l : Store)
    (ha : a.id = i) :
    setStatus i st (a :: l) = { a with status := st } :: setStatus i st l := by
  simp [setStatus, updateWhere, ha]

theorem findByContent_cons_hit {b : Job} {ck : ContentKey}
    (h1 : b.status ∈ coalesceStatuses) (h2 : b.meta.content_hash = ck) (l : Store) :
    findByContent (b :: l) ck = some b := by
  simp [findByContent, h1, h2]

theorem findByContent_singleton_miss (b : Job) (ck : ContentKey)
    (hb : b.meta.content_hash ≠ ck) : findByContent [b] ck = none := by
  have h : (b.meta.content_hash == ck) = false := beq_eq_false_iff_ne.mpr hb
  simp [findByContent, h]

theorem coalesce_hit (env1 env2 : GenEnv) (req1 req2 : GenerateReq) (s : Store)
    (st : Status)
    (hk1 : safeString req1.idempotencyKey = "")
    (hk2 : safeString req2.idempotencyKey = "")
    (hval1 : ¬(safeString req1.imageUrl = "" ∧ safeString req1.prompt = ""))
    (hval2 : ¬(safeString req2.imageUrl = "" ∧ safeString req2.prompt = ""))
    (hcont : findByContent s (contentKeyOf req1 (effectiveSeed env1 req1)) = none)
    (hins : env1.insertFailure = none)
    (hck : contentKeyOf req2 (effectiveSeed env2 req2) =
      contentKeyOf req1 (effectiveSeed env1 req1))
    (hst : st ∈ coalesceStatuses) :
    (generatePOST env1 req1 s).resp.jobId = some env1.newJobId ∧
    (generatePOST env2 req2
      (setStatus env1.newJobId st (generatePOST env1 req1 s).store)).resp.jobId =
        some env1.newJobId ∧
    (generatePOST env2 req2
      (setStatus env1.newJobId st (generatePOST env1 req1 s).store)).resp.cached = true ∧
    (generatePOST env2 req2
      (setStatus env1.newJobId st (generatePOST env1 req1 s).store)).store =
        setStatus env1.newJobId st (generatePOST env1 req1 s).store ∧
    (generatePOST env2 req2
      (setStatus env1.newJobId st (generatePOST env1 req1 s).store)).dispatched = false := by
  have hidem1 : idemLookup s (safeString req1.idempotencyKey) = none := by
    rw [hk1]; simp [idemLookup]
  have hidem2 : ∀ t : Store, idemLookup t (safeString req2.idempotencyKey) = none := by
    intro t; rw [hk2]; simp [idemLookup]
  simp only [generatePOST_insert_eq env1 req1 s hval1 hidem1 hcont hins]
  have hbid : (mkJob env1 req1 (safeString req1.idempotencyKey)
      (contentKeyOf req1 (effectiveSeed env1 req1)) (effectiveSeed env1 req1)).id =
      env1.newJobId := rfl
  rcases triggerWorker_cases env1 env1.newJobId
      (mkJob env1 req1 (safeString req1.idempotencyKey)
        (contentKeyOf req1 (effectiveSeed env1 req1)) (effectiveSeed env1 req1) :: s)
    with htw | ⟨msg, htw⟩
  · simp only [htw]
    have hfind2 : findByContent
        (setStatus env1.newJobId st
          (mkJob env1 req1 (safeString req1.idempotencyKey)
            (contentKeyOf req1 (effectiveSeed env1 req1)) (effectiveSeed env1 req1) :: s))
        (contentKeyOf req2 (effectiveSeed env2 req2)) =
        some { mkJob env1 req1 (safeString req1.idempotencyKey)
            (contentKeyOf req1 (effectiveSeed env1 req1)) (effectiveSeed env1 req1)
          with status := st } := by
      rw [setStatus_cons_hit env1.newJobId st _ hbid, hck]
      exact findByContent_cons_hit hst rfl _
    simp only [generatePOST_contentHit_eq env2 req2 _ _ hval2 (hidem2 _) hfind2]
    exact ⟨trivial, rfl, trivial, trivial, trivial⟩
  · simp only [htw]
    have hup : updateWhere (fun j => j.id == env1.newJobId) (markTriggerFailed msg)
        (mkJob env1 req1 (safeString req1.idempotencyKey)
          (contentKeyOf req1 (effectiveSeed env1 req1)) (effectiveSeed env1 req1) :: s) =
        markTriggerFailed msg (mkJob env1 req1 (safeString req1.idempotencyKey)
          (contentKeyOf req1 (effectiveSeed env1 req1)) (effectiveSeed env1 req1)) ::
        updateWhere (fun j => j.id == env1.newJobId) (markTriggerFailed msg) s := by
      simp [updateWhere, hbid]
    have hfind2 : findByContent
        (setStatus env1.newJobId st
          (updateWhere (fun j => j.id == env1.newJobId) (markTriggerFailed msg)
            (mkJob env1 req1 (safeString req1.idempotencyKey)
              (contentKeyOf req1 (effectiveSeed env1 req1)) (effectiveSeed env1 req1) :: s)))
        (contentKeyOf req2 (effectiveSeed env2 req2)) =
        some { markTriggerFailed msg (mkJob env1 req1 (safeString req1.idempotencyKey)
            (contentKeyOf req1 (effectiveSeed env1 req1)) (effectiveSeed env1 req1))
          with status := st } := by
      rw [hup, setStatus_cons_hit env1.newJobId st _
        (show (markTriggerFailed msg (mkJob env1 req1 (safeString req1.idempotencyKey)
          (contentKeyOf req1 (effectiveSeed env1 req1)) (effectiveSeed env1 req1))).id =
          env1.newJobId from rfl), hck]
      exact findByContent_cons_hit hst rfl _
    simp only [generatePOST_contentHit_eq env2 req2 _ _ hval2 (hidem2 _) hfind2]
    exact ⟨trivial, rfl, trivial, trivial, trivial⟩

theorem coalesce_miss (env1 env2 : GenEnv) (req1 req2 : GenerateReq)
    (hk1 : safeString req1.idempotencyKey = "")
    (hk2 : safeString req2.idempotencyKey = "")
    (hval1 : ¬(safeString req1.imageUrl = "" ∧ safeString req1.prompt = ""))
    (hval2 : ¬(safeString req2.imageUrl = "" ∧ safeString req2.prompt = ""))
    (hins1 : env1.insertFailure = none)
    (hins2 : env2.insertFailure = none)
    (hne : contentKeyOf req2 (effectiveSeed env2 req2) ≠
      contentKeyOf req1 (effectiveSeed env1 req1)) :
    (generatePOST env1 req1 []).resp.jobId = some env1.newJobId ∧
    (generatePOST env2 req2 (generatePOST env1 req1 []).store).resp.jobId =
      some env2.newJobId ∧
    (generatePOST env2 req2 (generatePOST env1 req1 []).store).resp.cached = false := by
  have hidem1 : idemLookup [] (safeString req1.idempotencyKey) = none := by
    rw [hk1]; simp [idemLookup]
  have hidem2 : ∀ t : Store, idemLookup t (safeString req2.idempotencyKey) = none := by
    intro t; rw [hk2]; simp [idemLookup]
  simp only [generatePOST_insert_eq env1 req1 [] hval1 hidem1 rfl hins1]
  have hbid : (mkJob env1 req1 (safeString req1.idempotencyKey)
      (contentKeyOf req1 (effectiveSeed env1 req1)) (effectiveSeed env1 req1)).id =
      env1.newJobId := rfl
  rcases triggerWorker_cases env1 env1.newJobId
      [mkJob env1 req1 (safeString req1.idempotencyKey)
        (contentKeyOf req1 (effectiveSeed env1 req1)) (effectiveSeed env1 req1)]
    with htw | ⟨msg, htw⟩
  · simp only [htw]
    have hmiss : findByContent
        [mkJob env1 req1 (safeString req1.idempotencyKey)
          (contentKeyOf req1 (effectiveSeed env1 req1)) (effectiveSeed env1 req1)]
        (contentKeyOf req2 (effectiveSeed env2 req2)) = none :=
      findByContent_singleton_miss _ _ (fun h => hne h.symm)
    simp only [generatePOST_insert_eq env2 req2 _ hval2 (hidem2 _) hmiss hins2]
    exact ⟨trivial, trivial, trivial⟩
  · simp only [htw]
    have hup : updateWhere (fun j => j.id == env1.newJobId) (markTriggerFailed msg)
        [mkJob env1 req1 (safeString req1.idempotencyKey)
          (contentKeyOf req1 (effectiveSeed env1 req1)) (effectiveSeed env1 req1)] =
        [markTriggerFailed msg (mkJob env1 req1 (safeString req1.idempotencyKey)
          (contentKeyOf req1 (effectiveSeed env1 req1)) (effectiveSeed env1 req1))] := by
      simp [updateWhere, hbid]
    have hmiss : findByContent
        (updateWhere (fun j => j.id == env1.newJobId) (markTriggerFailed msg)
          [mkJob env1 req1 (safeString req1.idempotencyKey)
            (contentKeyOf req1 (effectiveSeed env1 req1)) (effectiveSeed env1 req1)])
        (contentKeyOf req2 (effectiveSeed env2 req2)) = none := by
      rw [hup]
      exact findByContent_singleton_miss _ _ (fun h => hne h.symm)
    simp only [generatePOST_insert_eq env2 req2 _ hval2 (hidem2 _) hmiss hins2]
    exact ⟨trivial, trivial, trivial⟩

/-- C5: with no explicit idempotency key, (part one) a second submission
whose normalized fingerprint tuple is identical to the first finds the job
the first created while it is in completed, processing or retrying, and
answers with that job id, cached, no new row, no dispatch; (part two) two
submissions differing in any one fingerprint field (image, prompt,
category, strength, effective seed, resolution, aspect ratio, reference
list) are never coalesced: the second gets its own fresh job id. -/
theorem content_based_coalescing
    (envA1 envA2 envB1 envB2 : GenEnv) (reqA1 reqA2 reqB1 reqB2 : GenerateReq)
    (s : Store) (st : Status)
    (hkA1 : safeString reqA1.idempotencyKey = "")
    (hkA2 : safeString reqA2.idempotencyKey = "")
    (hvalA1 : ¬(safeString reqA1.imageUrl = "" ∧ safeString reqA1.prompt = ""))
    (hvalA2 : ¬(safeString reqA2.imageUrl = "" ∧ safeString reqA2.prompt = ""))
    (hcontA : findByContent s (contentKeyOf reqA1 (effectiveSeed envA1 reqA1)) = none)
    (hinsA : envA1.insertFailure = none)
    (hsame : contentKeyOf reqA2 (effectiveSeed envA2 reqA2) =
      contentKeyOf reqA1 (effectiveSeed envA1 reqA1))
    (hst : st ∈ coalesceStatuses)
    (hkB1 : safeString reqB1.idempotencyKey = "")
    (hkB2 : safeString reqB2.idempotencyKey = "")
    (hvalB1 : ¬(safeString reqB1.imageUrl = "" ∧ safeString reqB1.prompt = ""))
    (hvalB2 : ¬(safeString reqB2.imageUrl = "" ∧ safeString reqB2.prompt = ""))
    (hinsB1 : envB1.insertFailure = none)
    (hinsB2 : envB2.insertFailure = none)
    (hdiff : safeString reqB1.imageUrl ≠ safeString reqB2.imageUrl ∨
      reqB1.prompt ≠ reqB2.prompt ∨
      reqB1.category ≠ reqB2.category ∨
      reqB1.strength ≠ reqB2.strength ∨
      effectiveSeed envB1 reqB1 ≠ effectiveSeed envB2 reqB2 ∨
      reqB1.resolution ≠ reqB2.resolution ∨
      reqB1.aspectRatio ≠ reqB2.aspectRatio ∨
      reqB1.referenceImageUrls ≠ reqB2.referenceImageUrls)
    (hidB : envB2.newJobId ≠ envB1.newJobId) :
    ((generatePOST envA1 reqA1 s).resp.jobId = some envA1.newJobId ∧
     (generatePOST envA2 reqA2
       (setStatus envA1.newJobId st (generatePOST envA1 reqA1 s).store)).resp.jobId =
         some envA1.newJobId ∧
     (generatePOST envA2 reqA2
       (setStatus envA1.newJobId st (generatePOST envA1 reqA1 s).store)).resp.cached = true ∧
     (generatePOST envA2 reqA2
       (setStatus envA1.newJobId st (generatePOST envA1 reqA1 s).store)).store =
         setStatus envA1.newJobId st (generatePOST envA1 reqA1 s).store ∧
     (generatePOST envA2 reqA2
       (setStatus envA1.newJobId st (generatePOST envA1 reqA1 s).store)).dispatched =
         false) ∧
    ((generatePOST envB1 reqB1 []).resp.jobId = some envB1.newJobId ∧
     (generatePOST envB2 reqB2 (generatePOST envB1 reqB1 []).store).resp.jobId =
       some envB2.newJobId ∧
     (generatePOST envB2 reqB2 (generatePOST envB1 reqB1 []).store).resp.cached = false ∧
     (generatePOST envB2 reqB2 (generatePOST envB1 reqB1 []).store).resp.jobId ≠
       (generatePOST envB1 reqB1 []).resp.jobId) := by
  have hne : contentKeyOf reqB2 (effectiveSeed envB2 reqB2) ≠
      contentKeyOf reqB1 (effectiveSeed envB1 reqB1) := by
    intro h
    rcases hdiff with h1 | h1 | h1 | h1 | h1 | h1 | h1 | h1
    · exact h1 (congrArg ContentKey.imageUrl h).symm
    · exact h1 (congrArg ContentKey.prompt h).symm
    · exact h1 (congrArg ContentKey.category h).symm
    · exact h1 (congrArg ContentKey.strength h).symm
    · exact h1 (congrArg ContentKey.seed h).symm
    · exact h1 (congrArg ContentKey.resolution h).symm
    · exact h1 (congrArg ContentKey.aspectRatio h).symm
    · exact h1 (congrArg ContentKey.referenceImageUrls h).symm
  obtain ⟨hB1, hB2, hB3⟩ :=
    coalesce_miss envB1 envB2 reqB1 reqB2 hkB1 hkB2 hvalB1 hvalB2 hinsB1 hinsB2 hne
  refine ⟨coalesce_hit envA1 envA2 reqA1 reqA2 s st hkA1 hkA2 hvalA1 hvalA2
    hcontA hinsA hsame hst, hB1, hB2, hB3, ?_⟩
  rw [hB1, hB2]
  simp [hidB]

/-- Concrete scenarios for the C5 witness: part one resubmits the identical
request (explicit seed 1) after the first job completed; part two changes
only the seed (1 versus 2). -/
def c5Req1 : GenerateReq :=
  { sessionId := none, imageUrl := some "https://x/a.jpg", prompt := some "enhance"
    strength := none, category := none, photoId := none, idempotencyKey := none
    resolution := some "2K", aspectRatio := none, referenceImageUrls := none
    seed := some 1 }

def c5Req2 : GenerateReq := { c5Req1 with seed := some 2 }

def c5Env1 : GenEnv :=
  { randomSeed := 7, newJobId := 1, now := 0, freshSessionId := "sess_e"
    isLocalDev := false, qstashTokenPresent := true, publishFailure := none
    insertFailure := none, userId := none }

def c5Env2 : GenEnv :=
  { randomSeed := 8, newJobId := 2, now := 5, freshSessionId := "sess_f"
    isLocalDev := false, qstashTokenPresent := true, publishFailure := none
    insertFailure := none, userId := none }

theorem content_based_coalescing_witness :
    ((generatePOST c5Env1 c5Req1 []).resp.jobId = some c5Env1.newJobId ∧
     (generatePOST c5Env2 c5Req1
       (setStatus c5Env1.newJobId .completed (generatePOST c5Env1 c5Req1 []).store)).resp.jobId =
         some c5Env1.newJobId ∧
     (generatePOST c5Env2 c5Req1
       (setStatus c5Env1.newJobId .completed (generatePOST c5Env1 c5Req1 []).store)).resp.cached = true ∧
     (generatePOST c5Env2 c5Req1
       (setStatus c5Env1.newJobId .completed (generatePOST c5Env1 c5Req1 []).store)).store =
         setStatus c5Env1.newJobId .completed (generatePOST c5Env1 c5Req1 []).store ∧
     (generatePOST c5Env2 c5Req1
       (setStatus c5Env1.newJobId .completed (generatePOST c5Env1 c5Req1 []).store)).dispatched =
         false) ∧
    ((generatePOST c5Env1 c5Req1 []).resp.jobId = some c5Env1.newJobId ∧
     (generatePOST c5Env2 c5Req2 (generatePOST c5Env1 c5Req1 []).store).resp.jobId =
       some c5Env2.newJobId ∧
     (generatePOST c5Env2 c5Req2 (generatePOST c5Env1 c5Req1 []).store).resp.cached = false ∧
     (generatePOST c5Env2 c5Req2 (generatePOST c5Env1 c5Req1 []).store).resp.jobId ≠
       (generatePOST c5Env1 c5Req1 []).resp.jobId) :=
  content_based_coalescing c5Env1 c5Env2 c5Env1 c5Env2 c5Req1 c5Req1 c5Req1 c5Req2
    [] .completed rfl rfl (by decide) (by decide) rfl rfl rfl (by decide)
    rfl rfl (by decide) (by decide) rfl rfl
    (Or.inr (Or.inr (Or.inr (Or.inr (Or.inl (by decide)))))) (by decide)

/-! ## Claim C6: the random seed enters the fingerprint -/

/-- C6: when no explicit seed is supplied the endpoint draws the random
seed before hashing, stores it in the created row, and includes it in the
content fingerprint; two runs of the identical no-seed request that draw
different seeds therefore compute different fingerprints and the second
run is not deduplicated against the first by fingerprint alone. -/
theorem random_seed_defeats_fingerprint_dedup (env1 env2 : GenEnv)
    (req : GenerateReq)
    (hseed : req.seed = none)
    (hk : safeString req.idempotencyKey = "")
    (hval : ¬(safeString req.imageUrl = "" ∧ safeString req.prompt = ""))
    (hins1 : env1.insertFailure = none) (hins2 : env2.insertFailure = none)
    (hdraw : env1.randomSeed ≠ env2.randomSeed)
    (hid : env2.newJobId ≠ env1.newJobId) :
    effectiveSeed env1 req = env1.randomSeed ∧
    (contentKeyOf req (effectiveSeed env1 req)).seed = env1.randomSeed ∧
    (∃ j, getJob (generatePOST env1 req []).store env1.newJobId = some j ∧
      j.meta.seed = env1.randomSeed) ∧
    contentKeyOf req (effectiveSeed env1 req) ≠
      contentKeyOf req (effectiveSeed env2 req) ∧
    (generatePOST env1 req []).resp.jobId = some env1.newJobId ∧
    (generatePOST env2 req (generatePOST env1 req []).store).resp.jobId =
      some env2.newJobId ∧
    (generatePOST env2 req (generatePOST env1 req []).store).resp.jobId ≠
      (generatePOST env1 req []).resp.jobId := by
  have hes1 : effectiveSeed env1 req = env1.randomSeed := by
    simp [effectiveSeed, hseed]
  have hes2 : effectiveSeed env2 req = env2.randomSeed := by
    simp [effectiveSeed, hseed]
  have hne : contentKeyOf req (effectiveSeed env2 req) ≠
      contentKeyOf req (effectiveSeed env1 req) := by
    intro h
    have := congrArg ContentKey.seed h
    rw [show (contentKeyOf req (effectiveSeed env2 req)).seed =
        effectiveSeed env2 req from rfl,
      show (contentKeyOf req (effectiveSeed env1 req)).seed =
        effectiveSeed env1 req from rfl, hes1, hes2] at this
    exact hdraw this.symm
  obtain ⟨hB1, hB2, _hB3⟩ :=
    coalesce_miss env1 env2 req req hk hk hval hval hins1 hins2 hne
  have hpersist : ∃ j, getJob (generatePOST env1 req []).store env1.newJobId =
      some j ∧ j.meta.seed = env1.randomSeed := by
    have hidem1 : idemLookup [] (safeString req.idempotencyKey) = none := by
      rw [hk]; simp [idemLookup]
    rw [generatePOST_insert_eq env1 req [] hval hidem1 rfl hins1]
    rcases triggerWorker_cases env1 env1.newJobId
        [mkJob env1 req (safeString req.idempotencyKey)
          (contentKeyOf req (effectiveSeed env1 req)) (effectiveSeed env1 req)]
      with htw | ⟨msg, htw⟩
    · rw [htw]
      exact ⟨_, getJob_head _ [], hes1⟩
    · rw [htw]
      exact ⟨_, trigger_failed_head msg _ [], hes1⟩
  refine ⟨hes1, by rw [show (contentKeyOf req (effectiveSeed env1 req)).seed =
      effectiveSeed env1 req from rfl, hes1], hpersist, fun h => hne h.symm,
    hB1, hB2, ?_⟩
  rw [hB1, hB2]
  simp [hid]

/-- Concrete scenario for the C6 witness: the identical no-seed request
submitted twice; the first run draws seed 7, the second seed 8. -/
def c6Req : GenerateReq :=
  { sessionId := none, imageUrl := some "https://x/a.jpg", prompt := some "enhance"
    strength := none, category := none, photoId := none, idempotencyKey := none
    resolution := some "2K", aspectRatio := none, referenceImageUrls := none
    seed := none }

def c6Env1 : GenEnv :=
  { randomSeed := 7, newJobId := 1, now := 0, freshSessionId := "sess_g"
    isLocalDev := false, qstashTokenPresent := true, publishFailure := none
    insertFailure := none, userId := none }

def c6Env2 : GenEnv :=
  { randomSeed := 8, newJobId := 2, now := 5, freshSessionId := "sess_h"
    isLocalDev := false, qstashTokenPresent := true, publishFailure := none
    insertFailure := none, userId := none }

theorem random_seed_defeats_fingerprint_dedup_witness :
    effectiveSeed c6Env1 c6Req = c6Env1.randomSeed ∧
    (contentKeyOf c6Req (effectiveSeed c6Env1 c6Req)).seed = c6Env1.randomSeed ∧
    (∃ j, getJob (generatePOST c6Env1 c6Req []).store c6Env1.newJobId = some j ∧
      j.meta.seed = c6Env1.randomSeed) ∧
    contentKeyOf c6Req (effectiveSeed c6Env1 c6Req) ≠
      contentKeyOf c6Req (effectiveSeed c6Env2 c6Req) ∧
    (generatePOST c6Env1 c6Req []).resp.jobId = some c6Env1.newJobId ∧
    (generatePOST c6Env2 c6Req (generatePOST c6Env1 c6Req []).store).resp.jobId =
      some c6Env2.newJobId ∧
    (generatePOST c6Env2 c6Req (generatePOST c6Env1 c6Req []).store).resp.jobId ≠
      (generatePOST c6Env1 c6Req []).resp.jobId :=
  random_seed_defeats_fingerprint_dedup c6Env1 c6Env2 c6Req rfl rfl (by decide)
    rfl rfl (by decide) (by decide)

/-! ## Claim C7: retry attempts, backoff schedule and deadline -/

theorem withRetryGo_rate_limited (fn : Nat → AttemptResult)
    (hfn : ∀ k, ∃ msg dur, fn k = .thrown msg dur ∧ is429Msg msg = true) :
    ∀ remaining i elapsed delay attempts sleeps,
      remaining + i = 5 → attempts = i → 0 < remaining →
      ∃ ns : List (Nat × Nat),
        (withRetryGo fn 5 false remaining i elapsed delay attempts sleeps).sleeps =
          sleeps ++ ns ∧
        ns.length + 1 ≤ remaining ∧
        ns.map Prod.snd = (List.range ns.length).map
          (fun n => (if i == 0 then 10000 else delay) * 2 ^ n) ∧
        (∀ p ∈ ns, p.1 + p.2 * 3 / 2 ≤ VERCEL_DEADLINE_MS) ∧
        (withRetryGo fn 5 false remaining i elapsed delay attempts sleeps).attempts =
          attempts + ns.length + 1 ∧
        ∃ msg dur, fn (attempts + ns.length) = .thrown msg dur ∧
          (withRetryGo fn 5 false remaining i elapsed delay attempts sleeps).result =
            some msg := by
  intro remaining
  induction remaining with
  | zero =>
    intro i e d a sl _ _ hpos
    exact absurd hpos (by simp)
  | succ r ih =>
    intro i elapsed delay attempts sleeps hsum hatt hpos
    obtain ⟨msg, dur, hfk, h429⟩ := hfn i
    have hretry : isRetryableMsg msg = true := by
      simp [isRetryableMsg, h429]
    have hnd : nextDelay false i delay msg =
        if i == 0 then (10000 : Nat) else delay := by
      simp [nextDelay, h429]
    simp only [withRetryGo, hfk, hretry, hnd, Bool.not_true, Bool.false_or]
    by_cases hlast : i = 4
    · have hlastb : (i == 5 - 1) = true := by simp [hlast]
      simp only [hlastb, Bool.true_or]
      rw [if_pos trivial]
      refine ⟨[], by simp, by simp, by simp, by simp, by simp, msg, dur, ?_, rfl⟩
      simpa [hatt] using hfk
    · have hlastb : (i == 5 - 1) = false := by simp [hlast]
      simp only [hlastb, Bool.false_or]
      cases htc : tooClose (elapsed + dur) (if i == 0 then (10000 : Nat) else delay) with
      | true =>
        rw [if_pos rfl]
        refine ⟨[], by simp, by simp, by simp, by simp, by simp, msg, dur, ?_, rfl⟩
        simpa [hatt] using hfk
      | false =>
        rw [if_neg (by simp)]
        have hdead : elapsed + dur +
            (if i == 0 then (10000 : Nat) else delay) * 3 / 2 ≤
              VERCEL_DEADLINE_MS := by
          have h := htc
          simp only [tooClose, decide_eq_false_iff_not, not_lt] at h
          exact h
        have hr : 0 < r := by
          rcases Nat.eq_zero_or_pos r with h0 | h
          · exact absurd (by omega : i = 4) hlast
          · exact h
        obtain ⟨ns', hsl, hlen, hmap, hdl, hatt', msg', dur', hfk', hres'⟩ :=
          ih (i + 1) (elapsed + dur + (if i == 0 then (10000 : Nat) else delay))
            ((if i == 0 then (10000 : Nat) else delay) * 2) (attempts + 1)
            (sleeps ++ [(elapsed + dur, if i == 0 then (10000 : Nat) else delay)])
            (by omega) (by omega) hr
        refine ⟨(elapsed + dur, if i == 0 then (10000 : Nat) else delay) :: ns',
          ?_, ?_, ?_, ?_, ?_, msg', dur', ?_, ?_⟩
        · rw [hsl, List.append_assoc]
          rfl
        · simp only [List.length_cons]
          omega
        · simp only [List.map_cons, List.length_cons, List.range_succ_eq_map,
            List.map_map, hmap]
          refine List.cons_eq_cons.mpr ⟨by simp, ?_⟩
          apply List.map_congr_left
          intro n _
          simp only [Function.comp_apply, pow_succ,
            show ((i + 1 : Nat) == 0) = false from rfl]
          rw [if_neg (by simp)]
          ring
        · intro p hp
          rcases List.mem_cons.mp hp with hp | hp
          · subst hp
            omega
          · exact hdl p hp
        · rw [hatt']
          simp only [List.length_cons]
          omega
        · have hix : attempts + (ns'.length + 1) = attempts + 1 + ns'.length := by
            omega
          simp only [List.length_cons, hix]
          exact hfk'
        · exact hres'

/-- C7: under an endlessly repeating retryable rate-limit error and the
default options of the production call site, withRetry invokes the wrapped
operation at most the configured five times; the first sleep is the longer
10s rate-limit delay and every subsequent sleep doubles it; a sleep is
performed only while elapsed time plus one and a half times the next delay
stays within the 290s deadline, so no sleep ever crosses the deadline; and
the last error is surfaced once the loop abandons retrying. -/
theorem retry_bounded_backoff_deadline (fn : Nat → AttemptResult)
    (hfn : ∀ k, ∃ msg dur, fn k = .thrown msg dur ∧ is429Msg msg = true) :
    (withRetry fn ⟨none, none⟩).attempts ≤ 5 ∧
    (withRetry fn ⟨none, none⟩).sleeps.map Prod.snd =
      (List.range (withRetry fn ⟨none, none⟩).sleeps.length).map
        (fun n => 10000 * 2 ^ n) ∧
    (∀ p ∈ (withRetry fn ⟨none, none⟩).sleeps,
      p.1 + p.2 * 3 / 2 ≤ VERCEL_DEADLINE_MS ∧
      p.1 + p.2 ≤ VERCEL_DEADLINE_MS) ∧
    (∃ msg dur, fn ((withRetry fn ⟨none, none⟩).attempts - 1) = .thrown msg dur ∧
      (withRetry fn ⟨none, none⟩).result = some msg) := by
  obtain ⟨ns, hsl, hlen, hmap, hdl, hattempts, msg, dur, hfk, hres⟩ :=
    withRetryGo_rate_limited fn hfn 5 0 0 3000 0 [] rfl rfl (by omega)
  have hW : withRetry fn ⟨none, none⟩ = withRetryGo fn 5 false 5 0 0 3000 0 [] := rfl
  rw [hW]
  refine ⟨?_, ?_, ?_, msg, dur, ?_, hres⟩
  · rw [hattempts]
    omega
  · rw [hsl]
    simpa using hmap
  · intro p hp
    rw [hsl] at hp
    simp only [List.nil_append] at hp
    have h1 := hdl p hp
    have h2 : p.2 ≤ p.2 * 3 / 2 := by omega
    exact ⟨h1, by omega⟩
  · rw [hattempts]
    simpa using hfk

/-- Concrete scenario for the C7 witness: the wrapped call throws the same
Vertex AI 429 rate-limit error forever, each attempt consuming no time. -/
def c7fn : Nat → AttemptResult := fun _ => .thrown "Vertex AI error 429: rate limit" 0

theorem retry_bounded_backoff_deadline_witness :
    (withRetry c7fn ⟨none, none⟩).attempts ≤ 5 ∧
    (withRetry c7fn ⟨none, none⟩).sleeps.map Prod.snd =
      (List.range (withRetry c7fn ⟨none, none⟩).sleeps.length).map
        (fun n => 10000 * 2 ^ n) ∧
    (∀ p ∈ (withRetry c7fn ⟨none, none⟩).sleeps,
      p.1 + p.2 * 3 / 2 ≤ VERCEL_DEADLINE_MS ∧
      p.1 + p.2 ≤ VERCEL_DEADLINE_MS) ∧
    (∃ msg dur, c7fn ((withRetry c7fn ⟨none, none⟩).attempts - 1) = .thrown msg dur ∧
      (withRetry c7fn ⟨none, none⟩).result = some msg) :=
  retry_bounded_backoff_deadline c7fn
    (fun _ => ⟨"Vertex AI error 429: rate limit", 0, rfl, by decide⟩)

/-! ## Claim C9: aspect ratio snapping -/

theorem snapGo_min (q : ℚ) :
    ∀ (l : List (String × ℚ)) (b : String) (m : ℚ),
      ∃ m', (snapGo q l (b, some m)).2 = some m' ∧ m' ≤ m ∧
        (∀ p ∈ l, m' ≤ |q - p.2|) ∧
        ((∃ v', ((snapGo q l (b, some m)).1, v') ∈ l ∧ |q - v'| = m') ∨
          ((snapGo q l (b, some m)).1 = b ∧ m' = m)) := by
  intro l
  induction l with
  | nil =>
    intro b m
    exact ⟨m, rfl, le_refl m, by simp, Or.inr ⟨rfl, rfl⟩⟩
  | cons kv rest ih =>
    intro b m
    obtain ⟨k, v⟩ := kv
    by_cases hlt : |q - v| < m
    · have hred : snapGo q ((k, v) :: rest) (b, some m) =
          snapGo q rest (k, some |q - v|) := by
        simp [snapGo, hlt]
      obtain ⟨m', h1, h2, h3, h4⟩ := ih k |q - v|
      rw [hred]
      refine ⟨m', h1, le_trans h2 (le_of_lt hlt), ?_, ?_⟩
      · intro p hp
        rcases List.mem_cons.mp hp with hp | hp
        · subst hp
          exact h2
        · exact h3 p hp
      · rcases h4 with ⟨v', hv1, hv2⟩ | ⟨hb, hm⟩
        · exact Or.inl ⟨v', List.mem_cons_of_mem _ hv1, hv2⟩
        · refine Or.inl ⟨v, ?_, hm.symm⟩
          rw [hb]
          exact List.mem_cons_self _ _
    · have hred : snapGo q ((k, v) :: rest) (b, some m) =
          snapGo q rest (b, some m) := by
        simp [snapGo, hlt]
      obtain ⟨m', h1, h2, h3, h4⟩ := ih b m
      rw [hred]
      refine ⟨m', h1, h2, ?_, ?_⟩
      · intro p hp
        rcases List.mem_cons.mp hp with hp | hp
        · subst hp
          exact le_trans h2 (not_lt.mp hlt)
        · exact h3 p hp
      · rcases h4 with ⟨v', hv1, hv2⟩ | hb
        · exact Or.inl ⟨v', List.mem_cons_of_mem _ hv1, hv2⟩
        · exact Or.inr hb

/-- C9: for a source image of width w and height h, the adapter selects
from the supported ratio enum (21:9 down to 9:16) a member whose value
minimizes the absolute difference to w / h; in particular a source of
ratio 1.78 snaps to 16:9. -/
theorem aspect_ratio_snapping (w h : ℕ) (_hw : 0 < w) (_hh : 0 < h) :
    (∃ v, (closestRatio ((w : ℚ) / h), v) ∈ supportedRatios ∧
      ∀ p ∈ supportedRatios, |(w : ℚ) / h - v| ≤ |(w : ℚ) / h - p.2|) ∧
    closestRatio ((178 : ℚ) / 100) = "16:9" := by
  constructor
  · set q := (w : ℚ) / h with hq
    have hsup : supportedRatios = ("21:9", 21 / 9) ::
        [("16:9", 16 / 9), ("3:2", 3 / 2), ("4:3", 4 / 3), ("5:4", 5 / 4),
         ("1:1", 1), ("4:5", 4 / 5), ("3:4", 3 / 4), ("2:3", 2 / 3),
         ("9:16", 9 / 16)] := rfl
    have h1 : closestRatio q = (snapGo q
        [("16:9", 16 / 9), ("3:2", 3 / 2), ("4:3", 4 / 3), ("5:4", 5 / 4),
         ("1:1", 1), ("4:5", 4 / 5), ("3:4", 3 / 4), ("2:3", 2 / 3),
         ("9:16", 9 / 16)] ("21:9", some |q - 21 / 9|)).1 := by
      simp [closestRatio, supportedRatios, snapGo]
    obtain ⟨m', hm1, hm2, hm3, hm4⟩ := snapGo_min q
      [("16:9", 16 / 9), ("3:2", 3 / 2), ("4:3", 4 / 3), ("5:4", 5 / 4),
       ("1:1", 1), ("4:5", 4 / 5), ("3:4", 3 / 4), ("2:3", 2 / 3),
       ("9:16", 9 / 16)] "21:9" |q - 21 / 9|
    have hbound : ∀ p ∈ supportedRatios, m' ≤ |q - p.2| := by
      intro p hp
      rw [hsup] at hp
      rcases List.mem_cons.mp hp with hp | hp
      · subst hp
        exact hm2
      · exact hm3 p hp
    rcases hm4 with ⟨v', hv1, hv2⟩ | ⟨hb, hm⟩
    · refine ⟨v', ?_, ?_⟩
      · rw [h1, hsup]
        exact List.mem_cons_of_mem _ hv1
      · intro p hp
        rw [hv2]
        exact hbound p hp
    · refine ⟨21 / 9, ?_, ?_⟩
      · rw [h1, hb, hsup]
        exact List.mem_cons_self _ _
      · intro p hp
        rw [← hm]
        exact hbound p hp
  · simp only [closestRatio, supportedRatios, snapGo]
    norm_num [abs_of_pos, abs_of_neg]

theorem aspect_ratio_snapping_witness :
    0 < 178 ∧ 0 < 100 ∧
    ((∃ v, (closestRatio ((178 : ℚ) / 100), v) ∈ supportedRatios ∧
      ∀ p ∈ supportedRatios,
        |(178 : ℚ) / 100 - v| ≤ |(178 : ℚ) / 100 - p.2|) ∧
     closestRatio ((178 : ℚ) / 100) = "16:9") :=
  ⟨by decide, by decide, by
    have := aspect_ratio_snapping 178 100 (by decide) (by decide)
    simpa using this⟩

/-! ## Claim C8: result_url is set iff status is completed -/

/-- Active (non terminal) statuses a worker invocation moves a job
through. -/
def activeStatuses : List Status := [.processing, .generating, .saving]

/-- Guard of the amended claim C8: every row matched by an update keyed on
this id is still active, i.e. the worker is not being re-run against a job
that already reached a terminal state (the source itself does not enforce
this; the counterexample below exploits exactly that). -/
def ActiveAt (s : Store) (i : Nat) : Prop :=
  ∀ j ∈ s, j.id = i → j.status ∈ activeStatuses

/-- One store write of the pipeline, each constructor applying the exact
update the source performs (the insert of the submission endpoint, its
trigger-failure mark, the worker progress, completion and failure writes,
and the scavenger sweep), with the guards of the amended claim C8 on the
writes keyed by job id. -/
inductive GStep : Store → Store → Prop
  | insert (env : GenEnv) (req : GenerateReq) (idemKey : String)
      (ck : ContentKey) (seed : Nat) (s : Store) :
      GStep s (mkJob env req idemKey ck seed :: s)
  | triggerFail (i : Nat) (msg : String) (s : Store) (h : ActiveAt s i) :
      GStep s (updateWhere (fun j => j.id == i) (markTriggerFailed msg) s)
  | progress (i : Nat) (st : Status) (now : Nat) (cm : Metadata) (s : Store)
      (hst : st = .generating ∨ st = .saving) (h : ActiveAt s i) :
      GStep s (progressUpdate i st now cm s)
  | complete (i : Nat) (url : String) (cm : Metadata) (s : Store)
      (h : ActiveAt s i) :
      GStep s (completeUpdate i url cm s)
  | workerFail (oi : Option Nat) (msg : String) (now : Nat) (cm : Metadata)
      (s : Store) (h : ∀ i, oi = some i → ActiveAt s i) :
      GStep s (workerFailUpdate oi msg now cm s)
  | scavenge (now : Nat) (ids : List Nat) (s : Store) :
      GStep s (scavengerUpdate now ids s)

/-- Stores reachable from the empty table through guarded pipeline
writes. -/
inductive ReachableStore : Store → Prop
  | init : ReachableStore []
  | step {s t : Store} : ReachableStore s → GStep s t → ReachableStore t

/-- The claimed invariant: a row's result_url is set exactly when its
status is completed. -/
def ResultUrlInv (s : Store) : Prop :=
  ∀ j ∈ s, (j.result_url ≠ none ↔ j.status = .completed)

theorem resultUrlInv_updateWhere {p : Job → Bool} {f : Job → Job} {s : Store}
    (hinv : ResultUrlInv s)
    (hpres : ∀ j ∈ s, p j = true →
      (j.result_url ≠ none ↔ j.status = .completed) →
      ((f j).result_url ≠ none ↔ (f j).status = .completed)) :
    ResultUrlInv (updateWhere p f s) := by
  intro j' hj'
  obtain ⟨j, hj, rfl⟩ := List.mem_map.mp hj'
  by_cases hp : p j
  · simpa [hp] using hpres j hj hp (hinv j hj)
  · simpa [hp] using hinv j hj

/-- C8 (amended): in every store reachable through the submission
endpoint's insert and trigger-failure writes, the worker's progress,
completion and failure writes, and the scavenger sweep, provided each
worker-side write only ever hits a job still in an active status (that is,
the worker is never re-run on a job that already reached a terminal
state), a row's result_url is non-null exactly when its status is
completed: rows are inserted processing with no result_url, only the
completion write sets result_url, and the failure and scavenger writes
never set it. -/
theorem result_url_iff_completed (s : Store) (hreach : ReachableStore s) :
    ResultUrlInv s := by
  induction hreach with
  | init => intro j hj; cases hj
  | step _ hstep ih =>
    cases hstep with
    | insert env req idemKey ck seed s =>
      intro j hj
      rcases List.mem_cons.mp hj with hj | hj
      · subst hj
        simp [mkJob]
      · exact ih j hj
    | triggerFail i msg s h =>
      refine resultUrlInv_updateWhere ih ?_
      intro j hj hp hiff
      have hid : j.id = i := by simpa using hp
      have hact := h j hj hid
      have hnc : j.status ≠ .completed := by
        intro hc
        rw [hc] at hact
        simp [activeStatuses] at hact
      have hres : j.result_url = none := by
        by_contra hne
        exact hnc (hiff.mp hne)
      simp [markTriggerFailed, hres]
    | progress i st now cm s hst h =>
      refine resultUrlInv_updateWhere ih ?_
      intro j hj hp hiff
      have hid : j.id = i := by simpa using hp
      have hact := h j hj hid
      have hnc : j.status ≠ .completed := by
        intro hc
        rw [hc] at hact
        simp [activeStatuses] at hact
      have hres : j.result_url = none := by
        by_contra hne
        exact hnc (hiff.mp hne)
      rcases hst with hst | hst <;> subst hst <;> simp [hres]
    | complete i url cm s h =>
      refine resultUrlInv_updateWhere ih ?_
      intro j hj hp hiff
      simp
    | workerFail oi msg now cm s h =>
      refine resultUrlInv_updateWhere ih ?_
      intro j hj hp hiff
      have hoi : oi = some j.id := by
        have := hp
        simp only [beq_iff_eq] at this
        exact this.symm
      have hact := h j.id hoi j hj rfl
      have hnc : j.status ≠ .completed := by
        intro hc
        rw [hc] at hact
        simp [activeStatuses] at hact
      have hres : j.result_url = none := by
        by_contra hne
        exact hnc (hiff.mp hne)
      simp [hres]
    | scavenge now ids s =>
      refine resultUrlInv_updateWhere ih ?_
      intro j hj hp hiff
      have hproc : j.status = .processing := by
        have := hp
        simp only [Bool.and_eq_true, beq_iff_eq] at this
        exact this.2
      have hres : j.result_url = none := by
        by_contra hne
        rw [hiff.mp hne] at hproc
        cases hproc
      simp [scavengerFail, hres]

/-- Concrete scenario for the amended C8 witness: a fresh insert through
the submission endpoint write on the empty store. -/
def c8Req : GenerateReq :=
  { sessionId := none, imageUrl := some "https://x/a.jpg", prompt := some "enhance"
    strength := none, category := none, photoId := none, idempotencyKey := none
    resolution := some "2K", aspectRatio := none, referenceImageUrls := none
    seed := some 1 }

def c8Env : GenEnv :=
  { randomSeed := 7, newJobId := 1, now := 0, freshSessionId := "sess_i"
    isLocalDev := false, qstashTokenPresent := true, publishFailure := none
    insertFailure := none, userId := none }

theorem result_url_iff_completed_witness :
    ResultUrlInv [mkJob c8Env c8Req "" (contentKeyOf c8Req 1) 1] :=
  result_url_iff_completed _
    (ReachableStore.step ReachableStore.init
      (GStep.insert c8Env c8Req "" (contentKeyOf c8Req 1) 1 []))

/-- The unguarded code violates the claim as stated: run the submission
endpoint, let the worker complete the job, then re-deliver the same job to
the worker (at-least-once queue semantics) with a failing generation; the
catch write marks the job failed without clearing result_url, so the store
reached through the endpoints has a failed row with a non-null
result_url. -/
def c8WReq : WorkerReq :=
  { jobId := some 1, sessionId := some "s", imageUrl := some "https://x/a.jpg"
    prompt := some "enhance", photoId := none }

def c8WEnvOK : WorkerEnv :=
  { now := 5, generation := .ok (some "QUJD") none, pubBase := some "https://pub"
    uploadTimesOut := false, resultFetchFailure := none, finalUpdateFailure := none }

def c8WEnvFail : WorkerEnv :=
  { now := 9, generation := .err "boom", pubBase := some "https://pub"
    uploadTimesOut := false, resultFetchFailure := none, finalUpdateFailure := none }

def c8Store3 : Store :=
  (workerPOST c8WEnvFail c8WReq
    (workerPOST c8WEnvOK c8WReq (generatePOST c8Env c8Req []).store).store).store

theorem result_url_iff_completed_counterexample :
    (getJob c8Store3 1).map Job.status = some Status.failed ∧
    (getJob c8Store3 1).map (fun j => j.result_url.isSome) = some true ∧
    ¬ ResultUrlInv c8Store3 := by
  refine ⟨by decide, by decide, ?_⟩
  simp only [ResultUrlInv]
  decide

end Kxolab
